import Mathlib

/-!
Verification development for the superMonitor repository: a shallow
embedding of the metrics collector (src/monitor/metrics.py), the dashboard
renderer (src/monitor/display.py), the log probe (src/monitor/logs.py) and
the driver loop (src/system_monitor.py), together with theorems settling
the frozen claims about the natural-language specification.

Python dictionaries are embedded as association lists over an inductive
`Value` type; machine floats are embedded as rationals (only order and
exact decimal rendering matter to the program); every external effect
(psutil queries, subprocess invocations, json.loads, strftime,
textwrap.fill) is an explicit environment input, with raising calls
returning `Except`/outcome values.  Each probe and rendering function is a
total Lean function translated line by line from the source; a Python
expression that can raise is modelled in the `Except String` monad, so
that "does not raise" becomes "returns `.ok`".
-/

namespace SuperMonitor

/-- Embedding of Python runtime values as they appear in this program:
strings, floats (as rationals), ints (as naturals), booleans, None,
datetime objects (as an abstract rational instant), lists and dicts
(association lists; all dicts built by this program have distinct keys). -/
inductive Value where
  | vstr : String → Value
  | vnum : ℚ → Value
  | vnat : ℕ → Value
  | vbool : Bool → Value
  | vnone : Value
  | vtime : ℚ → Value
  | vlist : List Value → Value
  | vdict : List (String × Value) → Value

/-- First-match association lookup; the dicts built by this program never
repeat a key, so this agrees with Python dict lookup. -/
def alookup (d : List (String × Value)) (k : String) : Option Value :=
  match d with
  | [] => none
  | (k2, v) :: rest => if k2 = k then some v else alookup rest k

/-- Python `d.get(k, dflt)` on a dict embedded as an association list. -/
def dictGet (d : List (String × Value)) (k : String) (dflt : Value) : Value :=
  (alookup d k).getD dflt

/-- Python `k in d` for a dict. -/
def hasKey (d : List (String × Value)) (k : String) : Bool :=
  (alookup d k).isSome

/-- Python `obj.get(k, dflt)`: attribute error on a non-dict receiver. -/
def pyGet (v : Value) (k : String) (dflt : Value) : Except String Value :=
  match v with
  | .vdict d => .ok (dictGet d k dflt)
  | _ => .error "AttributeError: object has no attribute get"

/-- Python truthiness of an embedded value. -/
def truthy : Value → Bool
  | .vstr s => s != ""
  | .vnum q => q != 0
  | .vnat n => n != 0
  | .vbool b => b
  | .vnone => false
  | .vtime _ => true
  | .vlist l => !l.isEmpty
  | .vdict d => !d.isEmpty

/-- Whether a value is a Python str. -/
def isStrValue : Value → Bool
  | .vstr _ => true
  | _ => false

/-- Python `str(v)` restricted to the shapes this program actually
converts (strings, ints, bools, None); containers and floats only flow
into str() positions carrying data this development never inspects, so
their rendering here is a nominal stand-in. -/
def pyStr : Value → String
  | .vstr s => s
  | .vnat n => toString n
  | .vnum q => toString q.num ++ "/" ++ toString q.den
  | .vbool b => if b then "True" else "False"
  | .vnone => "None"
  | .vtime _ => "<datetime>"
  | .vlist _ => "<list>"
  | .vdict _ => "<dict>"

/-- Python str.startswith, computed structurally on the character lists. -/
def pyStartsWith (s pre : String) : Bool :=
  pre.data.isPrefixOf s.data

/-- Structural all-occurrence replacement on character lists, with fuel
bounded by the list length; pat is never empty in this program. -/
def replaceFuel (pat rep : List Char) : ℕ → List Char → List Char
  | 0, cs => cs
  | _ + 1, [] => []
  | n + 1, c :: cs =>
    if pat.isPrefixOf (c :: cs) then rep ++ replaceFuel pat rep n ((c :: cs).drop pat.length)
    else c :: replaceFuel pat rep n cs

/-- Python str.replace (all occurrences, left to right). -/
def pyReplace (s pat rep : String) : String :=
  String.mk (replaceFuel pat.data rep.data s.data.length s.data)

/-- Python str.lower. -/
def pyLower (s : String) : String := String.mk (s.data.map Char.toLower)

/-- Python str.upper. -/
def pyUpper (s : String) : String := String.mk (s.data.map Char.toUpper)

/-- The number of tenths in q, rounded to the nearest integer with ties
to even, as Python float formatting rounds; computed on the numerator and
denominator so that it evaluates inside the kernel. -/
def roundTenthsHalfEven (q : ℚ) : ℤ :=
  let num : ℤ := 10 * q.num
  let den : ℤ := (q.den : ℤ)
  let f : ℤ := Int.fdiv num den
  let r : ℤ := num - f * den
  if 2 * r < den then f
  else if den < 2 * r then f + 1
  else if f % 2 = 0 then f else f + 1

/-- Python format spec `:.1f` on a rational value. -/
def fmt1 (q : ℚ) : String :=
  let n : ℤ := roundTenthsHalfEven q
  if n < 0 then "-" ++ toString ((-n) / 10) ++ "." ++ toString ((-n) % 10)
  else toString (n / 10) ++ "." ++ toString (n % 10)

/-- Format spec `:.1f` applied to an arbitrary value: numbers (and bools,
which Python treats as ints) format, everything else raises. -/
def pyFmt1 : Value → Except String String
  | .vnum q => .ok (fmt1 q)
  | .vnat n => .ok (fmt1 (n : ℚ))
  | .vbool b => .ok (fmt1 (if b then 1 else 0))
  | _ => .error "ValueError: unknown format code for object"

/-- Loop body of display.format_bytes: walk the unit list, dividing by
1024 until the value drops below 1024; falling off the list renders TB. -/
def format_bytes_loop (v : ℚ) : List String → String
  | [] => fmt1 v ++ " " ++ "TB"
  | u :: rest => if v < 1024 then fmt1 v ++ " " ++ u else format_bytes_loop (v / 1024) rest

/-- display.format_bytes translated from src/monitor/display.py. -/
def format_bytes (v : ℚ) : String :=
  format_bytes_loop v ["B", "KB", "MB", "GB"]

/-- format_bytes applied to an arbitrary value: the comparison with 1024
raises on non-numbers. -/
def format_bytes_v : Value → Except String String
  | .vnum q => .ok (format_bytes q)
  | .vnat n => .ok (format_bytes (n : ℚ))
  | .vbool b => .ok (format_bytes (if b then 1 else 0))
  | _ => .error "TypeError: comparison not supported"

/-- The thresholds table of display.get_status_color, including its
default for an unknown threshold type. -/
def thresholdsFor (t : String) : ℚ × ℚ :=
  if t = "cpu" then (70, 90)
  else if t = "memory" then (70, 90)
  else if t = "disk" then (80, 95)
  else (70, 90)

/-- display.get_status_color translated from src/monitor/display.py:
value at or above critical is red, at or above warning is yellow,
otherwise green. -/
def get_status_color (value : ℚ) (threshold_type : String) : String :=
  let th := thresholdsFor threshold_type
  if th.2 ≤ value then "red"
  else if th.1 ≤ value then "yellow"
  else "green"

/-- get_status_color applied to an arbitrary value: the order comparison
raises on non-numbers. -/
def get_status_color_v (v : Value) (t : String) : Except String String :=
  match v with
  | .vnum q => .ok (get_status_color q t)
  | .vnat n => .ok (get_status_color (n : ℚ) t)
  | .vbool b => .ok (get_status_color (if b then 1 else 0) t)
  | _ => .error "TypeError: comparison not supported"

/-! ## Metrics collector (src/monitor/metrics.py)

Each probe takes an explicit environment describing what the external
world (psutil, subprocess, json) returns on this call; a call that raises
is an `.error` in the environment.  The probe bodies are the try/except
structure of the source, so totality of the Lean function is exactly the
source property that no exception escapes the probe. -/

/-- Outcome of psutil.cpu_percent, psutil.cpu_freq (None when the host
reports no frequency) and psutil.cpu_count on one call. -/
structure CpuEnv where
  cpu_percent : Except String ℚ
  cpu_freq : Except String (Option ℚ)
  cpu_count : Except String ℕ

/-- MetricsCollector._get_cpu_metrics translated from metrics.py. -/
def get_cpu_metrics (env : CpuEnv) : List (String × Value) :=
  match (do
    let p ← env.cpu_percent
    let f ← env.cpu_freq
    let c ← env.cpu_count
    Except.ok [("usage", Value.vnum p),
      ("frequency", Value.vnum (f.getD 0)),
      ("cores", Value.vnat c)] : Except String _) with
  | .ok d => d
  | .error e =>
      [("usage", Value.vnum 0), ("frequency", Value.vnum 0),
       ("cores", Value.vnat 0), ("error", Value.vstr e)]

/-- Fields of psutil.virtual_memory read by the collector. -/
structure VMStats where
  total : ℕ
  available : ℕ
  percent : ℚ

/-- Fields of psutil.swap_memory read by the collector. -/
structure SwapStats where
  total : ℕ
  used : ℕ
  percent : ℚ

/-- Outcomes of the two psutil calls of _get_memory_metrics. -/
structure MemEnv where
  virtual_memory : Except String VMStats
  swap_memory : Except String SwapStats

/-- MetricsCollector._get_memory_metrics translated from metrics.py. -/
def get_memory_metrics (env : MemEnv) : List (String × Value) :=
  match (do
    let mem ← env.virtual_memory
    let swap ← env.swap_memory
    Except.ok [("total", Value.vnat mem.total),
      ("available", Value.vnat mem.available),
      ("percent", Value.vnum mem.percent),
      ("swap_total", Value.vnat swap.total),
      ("swap_used", Value.vnat swap.used),
      ("swap_percent", Value.vnum swap.percent)] : Except String _) with
  | .ok d => d
  | .error e => [("error", Value.vstr e)]

/-- Fields of a psutil disk usage record. -/
structure DiskUsage where
  total : ℕ
  used : ℕ
  free : ℕ
  percent : ℚ

/-- Fields of psutil.disk_io_counters read by the collector. -/
structure DiskIO where
  read_bytes : ℕ
  write_bytes : ℕ

/-- Outcomes of the two psutil calls of _get_disk_metrics;
disk_io_counters may legitimately return None. -/
structure DiskEnv where
  disk_usage_root : Except String DiskUsage
  disk_io_counters : Except String (Option DiskIO)

/-- MetricsCollector._get_disk_metrics translated from metrics.py. -/
def get_disk_metrics (env : DiskEnv) : List (String × Value) :=
  match (do
    let disk ← env.disk_usage_root
    let io ← env.disk_io_counters
    Except.ok [("total", Value.vnat disk.total),
      ("used", Value.vnat disk.used),
      ("free", Value.vnat disk.free),
      ("percent", Value.vnum disk.percent),
      ("read_bytes", Value.vnat ((io.map DiskIO.read_bytes).getD 0)),
      ("write_bytes", Value.vnat ((io.map DiskIO.write_bytes).getD 0))] : Except String _) with
  | .ok d => d
  | .error e => [("error", Value.vstr e)]

/-- One entry of psutil.disk_partitions. -/
structure PartitionEntry where
  device : String
  mountpoint : String
  fstype : String
  opts : String

/-- Outcome of psutil.disk_usage on one mountpoint: success, a
PermissionError, or any other exception. -/
inductive UsageResult where
  | ok : DiskUsage → UsageResult
  | permissionError : UsageResult
  | failure : String → UsageResult

/-- Environment of _get_mount_points: the partition enumeration outcome
and the per-mountpoint stat outcome. -/
structure MountEnv where
  disk_partitions : Except String (List PartitionEntry)
  disk_usage : String → UsageResult

/-- The fixed virtual-filesystem exclusion set of _get_mount_points. -/
def virtualFstypes : List String :=
  ["squashfs", "tmpfs", "devtmpfs", "devpts", "proc", "sysfs", "securityfs"]

/-- The mount_info dict built for a successfully statted partition. -/
def mountEntryOk (p : PartitionEntry) (u : DiskUsage) : Value :=
  .vdict [("device", .vstr p.device), ("mountpoint", .vstr p.mountpoint),
    ("fstype", .vstr p.fstype), ("opts", .vstr p.opts),
    ("total", .vnat u.total), ("used", .vnat u.used),
    ("free", .vnat u.free), ("percent", .vnum u.percent),
    ("status", .vstr "mounted")]

/-- The error dict built for a partition whose stat failed. -/
def mountEntryErr (p : PartitionEntry) (e : String) : Value :=
  .vdict [("device", .vstr p.device), ("mountpoint", .vstr p.mountpoint),
    ("fstype", .vstr p.fstype), ("opts", .vstr p.opts),
    ("status", .vstr "error"), ("error", .vstr e)]

/-- The loop body of _get_mount_points over the enumerated partitions:
skip virtual fstypes; on a successful stat report only real-device
entries; report PermissionError unconditionally; report other stat
failures only for real-device entries. -/
def processMounts (usage : String → UsageResult) : List PartitionEntry → List Value
  | [] => []
  | p :: rest =>
    let tail := processMounts usage rest
    if p.fstype ∈ virtualFstypes then tail
    else
      match usage p.mountpoint with
      | .ok u => if pyStartsWith p.device "/dev/" then mountEntryOk p u :: tail else tail
      | .permissionError => mountEntryErr p "Permission denied" :: tail
      | .failure e => if pyStartsWith p.device "/dev/" then mountEntryErr p e :: tail else tail

/-- The entry appended when psutil.disk_partitions itself raises. -/
def unknownMountEntry (e : String) : Value :=
  .vdict [("device", .vstr "Unknown"), ("mountpoint", .vstr "Unknown"),
    ("fstype", .vstr "Unknown"), ("status", .vstr "error"),
    ("error", .vstr ("Failed to get mount points: " ++ e))]

/-- The sentinel entry substituted when no mount entries survive. -/
def noDevicesEntry : Value :=
  .vdict [("device", .vstr "No devices found"), ("mountpoint", .vstr "-"),
    ("fstype", .vstr "-"), ("status", .vstr "error"),
    ("error", .vstr "No mount points available")]

/-- The mount_points list accumulated before the final emptiness check of
_get_mount_points. -/
def mountPointsRaw (env : MountEnv) : List Value :=
  match env.disk_partitions with
  | .ok ps => processMounts env.disk_usage ps
  | .error e => [unknownMountEntry e]

/-- MetricsCollector._get_mount_points translated from metrics.py. -/
def get_mount_points (env : MountEnv) : List Value :=
  let mps := mountPointsRaw env
  if mps.isEmpty then [noDevicesEntry] else mps

/-- Outcome of a subprocess.run call with check=True: captured stdout on
exit code zero, CalledProcessError on a non-zero exit, or any other
exception (tool missing, and so on). -/
inductive CmdResult where
  | ok : String → CmdResult
  | calledProcessError : String → CmdResult
  | failure : String → CmdResult

/-- Worker of pySplitlines: cut at every newline; a trailing newline does
not open a final empty line, matching Python str.splitlines. -/
def splitLinesAux : List Char → List Char → List String
  | [], acc => if acc.isEmpty then [] else [String.mk acc.reverse]
  | c :: cs, acc =>
    if c = '\n' then String.mk acc.reverse :: splitLinesAux cs []
    else splitLinesAux cs (c :: acc)

/-- Python str.splitlines for the newline-separated text the external
tools emit. -/
def pySplitlines (s : String) : List String :=
  splitLinesAux s.data []

/-- Worker of pySplitWs: split on whitespace runs, emitting no empty
fields. -/
def splitWsAux : List Char → List Char → List String
  | [], acc => if acc.isEmpty then [] else [String.mk acc.reverse]
  | c :: cs, acc =>
    if c.isWhitespace then
      if acc.isEmpty then splitWsAux cs []
      else String.mk acc.reverse :: splitWsAux cs []
    else splitWsAux cs (c :: acc)

/-- Python str.split() with no arguments: split on whitespace runs,
discarding empty fields (the lines split here contain only spaces and
tabs, on which Python and this model agree). -/
def pySplitWs (s : String) : List String :=
  splitWsAux s.data []

/-- The fixed unhealthy state set of _get_system_services. -/
def unhealthyStates : List String :=
  ["failed", "error", "inactive", "exited", "dead", "unknown"]

/-- One iteration of the line loop of _get_system_services: parse at
least four whitespace-separated columns and retain the unit only when one
of load/active/sub is unhealthy. -/
def parseServiceLine (line : String) : Option Value :=
  match pySplitWs line with
  | name :: load :: active :: sub :: _ =>
    if load ∈ unhealthyStates ∨ active ∈ unhealthyStates ∨ sub ∈ unhealthyStates then
      some (.vdict [("name", .vstr name), ("status", .vstr active),
        ("sub_status", .vstr sub), ("load_status", .vstr load),
        ("response_time", .vnat 0)])
    else none
  | _ => none

/-- MetricsCollector._get_system_services translated from metrics.py; the
environment is the outcome of the systemctl list-units invocation. -/
def get_system_services (env : CmdResult) : List Value :=
  match env with
  | .ok out => (pySplitlines out).filterMap parseServiceLine
  | .calledProcessError e =>
    [.vdict [("name", .vstr "systemctl"), ("status", .vstr "error"),
      ("error", .vstr ("Failed to get services: " ++ e)),
      ("response_time", .vnat 0)]]
  | .failure e =>
    [.vdict [("name", .vstr "unknown"), ("status", .vstr "error"),
      ("error", .vstr ("Error reading services: " ++ e)),
      ("response_time", .vnat 0)]]

/-- Environment of LogMonitor.get_system_logs: the journalctl outcome, a
strptime oracle (already composed with the current-year substitution; None
models a ValueError) and the current time for the fallbacks. -/
structure LogEnv where
  journalctl : CmdResult
  strptimeBD : String → Option ℚ
  now : ℚ

/-- Worker of pySplitSpace: cut at every single space while splits
remain, keeping empty fields, as Python str.split(" ", maxsplit) does. -/
def splitSpaceAux : List Char → ℕ → List Char → List String
  | [], _, acc => [String.mk acc.reverse]
  | c :: cs, n, acc =>
    if c = ' ' then
      match n with
      | 0 => splitSpaceAux cs 0 (c :: acc)
      | m + 1 => String.mk acc.reverse :: splitSpaceAux cs m []
    else splitSpaceAux cs n (c :: acc)

/-- Python str.split(" ", maxsplit). -/
def pySplitSpace (s : String) (maxsplit : ℕ) : List String :=
  splitSpaceAux s.data maxsplit []

/-- One iteration of the line loop of LogMonitor.get_system_logs:
non-blank lines with at least four space-separated fields become an
ERROR-level entry whose timestamp falls back to now on a parse failure. -/
def parseLogLine (env : LogEnv) (line : String) : Option Value :=
  if line.trim = "" then none
  else
    match pySplitSpace line 3 with
    | p0 :: p1 :: _ :: p3 :: [] =>
      let ts := (env.strptimeBD (p0 ++ " " ++ p1)).getD env.now
      some (.vdict [("timestamp", .vtime ts), ("level", .vstr "ERROR"),
        ("message", .vstr p3.trim)])
    | _ => none

/-- LogMonitor.get_system_logs translated from src/monitor/logs.py. -/
def get_system_logs (env : LogEnv) : List Value :=
  match env.journalctl with
  | .ok out => (pySplitlines out).filterMap (parseLogLine env)
  | .calledProcessError _ =>
    [.vdict [("timestamp", .vtime env.now), ("level", .vstr "ERROR"),
      ("message", .vstr "Failed to retrieve system logs")]]
  | .failure e =>
    [.vdict [("timestamp", .vtime env.now), ("level", .vstr "ERROR"),
      ("message", .vstr ("Error reading logs: " ++ e))]]

/-- Outcome of json.loads on a captured stdout string: a decode error or
a parsed value. -/
inductive JsonOutcome where
  | invalid : JsonOutcome
  | parsed : Value → JsonOutcome

/-- Environment of _get_partition_info for one vendor command: its
subprocess outcome and the json.loads oracle on stdout strings. -/
structure PartEnv where
  run : CmdResult
  jsonLoads : String → JsonOutcome

/-- MetricsCollector._get_partition_info translated from metrics.py.  The
inner try catches only JSONDecodeError; an attribute error from
data.get on a non-dict JSON value falls through to the outer handler. -/
def get_partition_info (env : PartEnv) : Value :=
  match env.run with
  | .ok out =>
    if out ≠ "" then
      match env.jsonLoads out with
      | .invalid => .vdict [("error", .vstr "Invalid JSON data received")]
      | .parsed data =>
        match pyGet data "partition1" (.vdict []) with
        | .ok v => v
        | .error e => .vdict [("error", .vstr ("Error getting partition info: " ++ e))]
    else .vdict [("error", .vstr "No data received")]
  | .calledProcessError e => .vdict [("error", .vstr ("Command failed: " ++ e))]
  | .failure e => .vdict [("error", .vstr ("Error getting partition info: " ++ e))]

/-- Environments of the three vendor partition commands. -/
structure PartitionsEnv where
  p1 : PartEnv
  p2 : PartEnv
  p3 : PartEnv

/-- MetricsCollector._get_all_partitions_info translated from metrics.py. -/
def get_all_partitions_info (env : PartitionsEnv) : Value :=
  .vdict [("partition1", get_partition_info env.p1),
    ("partition2", get_partition_info env.p2),
    ("partition3", get_partition_info env.p3)]

/-- Environment of one get_metrics call: the current time and every
probe environment. -/
structure CollectEnv where
  timeNow : ℚ
  cpu : CpuEnv
  memory : MemEnv
  disk : DiskEnv
  mounts : MountEnv
  services : CmdResult
  logs : LogEnv
  partitions : PartitionsEnv

/-- MetricsCollector.get_metrics translated from metrics.py: the snapshot
dict with its eight fields in source order. -/
def get_metrics (env : CollectEnv) : List (String × Value) :=
  [("timestamp", .vnum env.timeNow),
   ("cpu", .vdict (get_cpu_metrics env.cpu)),
   ("memory", .vdict (get_memory_metrics env.memory)),
   ("disk", .vdict (get_disk_metrics env.disk)),
   ("mount_points", .vlist (get_mount_points env.mounts)),
   ("services", .vlist (get_system_services env.services)),
   ("logs", .vlist (get_system_logs env.logs)),
   ("partitions", get_all_partitions_info env.partitions)]

/-! ## Dashboard renderer (src/monitor/display.py)

A rendered rich Panel is embedded as its title, border style and body
(either a styled text block, a table of rows of cell strings, or a list
of styled text segments).  Rendering runs in `Except String`: an `.error`
is a Python exception escaping the rendering function.  Library
behaviours external to the repository (strftime, textwrap.fill) are
environment functions; rich cell conversion of a non-str cell is modelled
by pyStr. -/

/-- Body of a rendered panel. -/
inductive PanelBody where
  | text : String → String → PanelBody
  | table : List (List String) → PanelBody
  | segments : List (String × String) → PanelBody

/-- A rendered rich Panel. -/
structure Panel where
  title : String
  border_style : String
  body : PanelBody

/-- Environment of the renderer: the current time, the strftime rendering
of a datetime instant, and textwrap.fill at width 100. -/
structure RenderEnv where
  now : ℚ
  fmtTime : ℚ → String
  fill100 : String → String

/-- display.create_metrics_panel translated from display.py: six rows of
CPU, memory and disk figures, colored by get_status_color. -/
def create_metrics_panel (metrics : List (String × Value)) : Except String Panel := do
  let cpu := dictGet metrics "cpu" (.vdict [])
  let usage ← pyGet cpu "usage" (.vnat 0)
  let cpu_color ← get_status_color_v usage "cpu"
  let usageS ← pyFmt1 usage
  let freqS ← pyFmt1 (← pyGet cpu "frequency" (.vnat 0))
  let mem := dictGet metrics "memory" (.vdict [])
  let memp ← pyGet mem "percent" (.vnat 0)
  let mem_color ← get_status_color_v memp "memory"
  let mempS ← pyFmt1 memp
  let memtS ← format_bytes_v (← pyGet mem "total" (.vnat 0))
  let disk := dictGet metrics "disk" (.vdict [])
  let dp ← pyGet disk "percent" (.vnat 0)
  let disk_color ← get_status_color_v dp "disk"
  let dpS ← pyFmt1 dp
  let wbS ← format_bytes_v (← pyGet disk "write_bytes" (.vnat 0))
  let rbS ← format_bytes_v (← pyGet disk "read_bytes" (.vnat 0))
  Except.ok
    { title := "[bold blue]System Metrics[/bold blue]", border_style := "blue",
      body := .table [
        ["CPU Usage:", "[" ++ cpu_color ++ "]" ++ usageS ++ "%[/" ++ cpu_color ++ "]"],
        ["CPU Frequency:", freqS ++ " MHz"],
        ["Memory Usage:", "[" ++ mem_color ++ "]" ++ mempS ++ "%[/" ++ mem_color ++ "]"],
        ["Memory Total:", memtS],
        ["Disk Usage:", "[" ++ disk_color ++ "]" ++ dpS ++ "%[/" ++ disk_color ++ "]"],
        ["Disk I/O:", "↑" ++ wbS ++ " ↓" ++ rbS]] }

/-- The status_colors table of create_services_panel as a partial map,
composed with its .get default elsewhere. -/
def statusColors (status : String) : Option String :=
  if status = "failed" then some "[red]Failed[/red]"
  else if status = "inactive" then some "[yellow]Inactive[/yellow]"
  else if status = "error" then some "[red]Error[/red]"
  else if status = "dead" then some "[red]Dead[/red]"
  else if status = "unknown" then some "[yellow]Unknown[/yellow]"
  else none

/-- One iteration of the service loop of create_services_panel. -/
def renderServiceRow (service : Value) : Except String (List String) := do
  let nameV ← pyGet service "name" (.vstr "Unknown")
  let name ← (match nameV with
    | .vstr s => Except.ok (pyReplace s ".service" "")
    | _ => Except.error "AttributeError: replace")
  let statusV ← pyGet service "status" (.vstr "unknown")
  let status ← (match statusV with
    | .vstr s => Except.ok (pyLower s)
    | _ => Except.error "AttributeError: lower")
  let subV ← pyGet service "sub_status" (.vstr "")
  let loadV ← pyGet service "load_status" (.vstr "")
  let statusDisplay := (statusColors status).getD ("[yellow]" ++ status ++ "[/yellow]")
  let details :=
    if truthy loadV && truthy subV then pyStr loadV ++ "/" ++ pyStr subV
    else "No details"
  Except.ok [name, statusDisplay, details]

/-- display.create_services_panel translated from display.py.  A truthy
non-list value raises when Python dereferences .get on its first element
or fails to iterate it, matching the source loop. -/
def create_services_panel (services : Value) : Except String Panel := do
  let rows ← (if truthy services then
      match services with
      | .vlist l => l.mapM renderServiceRow
      | _ => Except.error "TypeError: services object is not iterable as dicts"
    else Except.ok [["No issues", "[green]All services OK[/green]", ""]])
  Except.ok
    { title := "[bold blue]Problem Services[/bold blue]",
      border_style := "blue", body := .table rows }

/-- Python comparison of a looked-up value with the string literal
"mounted". -/
def isMountedStatus : Value → Bool
  | .vstr s => s == "mounted"
  | _ => false

/-- One iteration of the mount loop of create_mount_points_panel: skip
non-dicts and entries whose error field is present but not a string;
otherwise build the row, raising where the source would (the
get_status_color comparison on a non-numeric percent). -/
def renderMountRow (mp : Value) : Except String (Option (List String)) :=
  match mp with
  | .vdict d =>
    if hasKey d "error" && !(isStrValue (dictGet d "error" .vnone)) then Except.ok none
    else do
      let status_color ← get_status_color_v (dictGet d "percent" (.vnat 0)) "disk"
      let mounted := isMountedStatus (dictGet d "status" .vnone)
      let status :=
        if mounted then "[green]OK[/green]"
        else "[red]Error: " ++ pyStr (dictGet d "error" (.vstr "Unknown")) ++ "[/red]"
      let pcS ← pyFmt1 (dictGet d "percent" (.vnat 0))
      let usage :=
        if mounted then "[" ++ status_color ++ "]" ++ pcS ++ "%[/" ++ status_color ++ "]"
        else "N/A"
      Except.ok (some [pyStr (dictGet d "device" (.vstr "Unknown")),
        pyStr (dictGet d "mountpoint" (.vstr "Unknown")),
        pyStr (dictGet d "fstype" (.vstr "Unknown")),
        usage, status])
  | _ => Except.ok none

/-- A Python for-loop whose body skips every non-dict element: lists
iterate their elements; strings iterate characters and dicts iterate
keys, both of which the body skips, leaving no rows; anything else is not
iterable. -/
def iterForRows (f : Value → Except String (Option (List String))) :
    Value → Except String (List (List String))
  | .vlist l => do
    let rs ← l.mapM f
    Except.ok (rs.filterMap id)
  | .vstr _ => Except.ok []
  | .vdict _ => Except.ok []
  | _ => Except.error "TypeError: object is not iterable"

/-- The placeholder row of create_mount_points_panel for a falsy input. -/
def noMountRows : List (List String) :=
  [["No mount points available", "", "", "", "[yellow]N/A[/yellow]"]]

/-- display.create_mount_points_panel translated from display.py. -/
def create_mount_points_panel (mount_points : Value) : Except String Panel := do
  let rows ←
    if truthy mount_points then iterForRows renderMountRow mount_points
    else Except.ok noMountRows
  Except.ok
    { title := "[bold blue]Mount Points Status[/bold blue]",
      border_style := "blue", body := .table rows }

/-- Python membership test `k in v` for the container shapes, raising on
non-containers as the source would. -/
def pyContains (v : Value) (k : String) : Except String Bool :=
  match v with
  | .vdict d => .ok (hasKey d k)
  | .vlist l => .ok (l.any (fun x => match x with | .vstr t => t == k | _ => false))
  | .vstr s => .ok ((s.splitOn k).length > 1)
  | _ => .error "TypeError: argument is not a container"

/-- One item block appended by the inner loop of create_partition_panel. -/
def renderPartitionItem (item : Value) : Except String (List (String × String)) := do
  let name ← pyGet item "name" (.vstr "Unknown")
  let size ← pyGet item "size" (.vnat 0)
  let date ← pyGet item "date" (.vstr "Unknown")
  let status ← pyGet item "status" (.vstr "unknown")
  let valid ← pyGet item "valid" (.vbool false)
  Except.ok [("  " ++ pyStr name ++ "\n", "cyan"),
    ("  Size: " ++ pyStr size ++ " bytes\n", "magenta"),
    ("  Date: " ++ pyStr date ++ "\n", "yellow"),
    ("  Status: " ++ pyStr status ++ "\n", "green"),
    ("  Valid: " ++ pyStr valid ++ "\n", if truthy valid then "green" else "red"),
    ("\n", "")]

/-- The text segments built by the success branch of
create_partition_panel over partition_data.items(). -/
def renderPartitionItems (v : Value) : Except String (List (String × String)) :=
  match v with
  | .vdict d => do
    let parts ← d.mapM (fun kv => do
      let itemSegs ← (match kv.2 with
        | .vlist items => do
          let ss ← items.mapM renderPartitionItem
          Except.ok ss.flatten
        | _ => Except.error "TypeError: items value is not iterable as dicts")
      Except.ok ((kv.1 ++ ":\n", "bold blue") :: itemSegs))
    Except.ok parts.flatten
  | _ => .error "AttributeError: items"

/-- display.create_partition_panel translated from display.py: a falsy or
error-keyed report renders a red text panel; otherwise the item blocks
are rendered. -/
def create_partition_panel (partition_data : Value) (partition_name : String) :
    Except String Panel := do
  let failed ←
    if !(truthy partition_data) then Except.ok true
    else pyContains partition_data "error"
  if failed then do
    let ev ← pyGet partition_data "error" (.vstr "Failed to get partition data")
    Except.ok
      { title := "[bold blue]" ++ partition_name ++ "[/bold blue]",
        border_style := "blue", body := .text (pyStr ev) "red" }
  else do
    let segs ← renderPartitionItems partition_data
    Except.ok
      { title := "[bold blue]" ++ partition_name ++ "[/bold blue]",
        border_style := "blue", body := .segments segs }

/-- The color table of create_system_logs_panel with its .get default. -/
def levelColor (level : String) : String :=
  if level = "ERROR" then "red"
  else if level = "WARNING" then "yellow"
  else if level = "INFO" then "green"
  else if level = "DEBUG" then "blue"
  else "white"

/-- One iteration of the log loop of create_system_logs_panel. -/
def renderLogRow (env : RenderEnv) (log : Value) : Except String (Option (List String)) :=
  match log with
  | .vdict d => do
    let level ← (match dictGet d "level" (.vstr "INFO") with
      | .vstr s => Except.ok (pyUpper s)
      | _ => Except.error "AttributeError: upper")
    let color := levelColor level
    let ts ← (match dictGet d "timestamp" (.vtime env.now) with
      | .vtime t => Except.ok (env.fmtTime t)
      | _ => Except.error "AttributeError: strftime")
    let msg ← (match dictGet d "message" (.vstr "No message") with
      | .vstr s => Except.ok s
      | _ => Except.error "TypeError: fill expects a str")
    Except.ok (some [ts, "[" ++ color ++ "]" ++ level ++ "[/" ++ color ++ "]",
      env.fill100 msg])
  | _ => Except.ok none

/-- The placeholder row of create_system_logs_panel for a falsy input. -/
def noLogRows : List (List String) :=
  [["--:--:--", "[yellow]INFO[/yellow]", "No logs available"]]

/-- display.create_system_logs_panel translated from display.py. -/
def create_system_logs_panel (env : RenderEnv) (logs : Value) : Except String Panel := do
  let rows ←
    if truthy logs then iterForRows (renderLogRow env) logs
    else Except.ok noLogRows
  Except.ok
    { title := "[bold blue]System Logs (Errors & Failures)[/bold blue]",
      border_style := "blue", body := .table rows }

/-- The rendered dashboard frame: the fixed layout of create_dashboard
with its header, the upper row of three panels, the middle row of three
partition panels, the log table and the footer. -/
structure Frame where
  header : String
  metricsP : Panel
  servicesP : Panel
  mountsP : Panel
  partition1 : Panel
  partition2 : Panel
  partition3 : Panel
  logsP : Panel
  footer : String

/-- The fixed footer text of create_dashboard. -/
def footerText : String := "[dim]Press Ctrl+C to exit | Updated every 2s[/dim]"

/-- datetime.fromtimestamp on the looked-up timestamp value: numbers (and
bools, which Python treats as ints) convert, everything else raises. -/
def pyFromtimestamp : Value → Except String ℚ
  | .vnum q => .ok q
  | .vnat n => .ok (n : ℚ)
  | .vbool b => .ok (if b then 1 else 0)
  | _ => .error "TypeError: fromtimestamp argument must be a number"

/-- display.create_dashboard translated from display.py: a non-dict
snapshot is replaced by the empty dict, the header clock comes from the
timestamp field (falling back to the current time; fromtimestamp raises
on a non-number), and the eight regions are filled in source order. -/
def create_dashboard (env : RenderEnv) (metrics0 : Value) : Except String Frame := do
  let m : List (String × Value) :=
    match metrics0 with
    | .vdict d => d
    | _ => []
  let ts ← pyFromtimestamp (dictGet m "timestamp" (.vnum env.now))
  let header := "[bold white on blue] System Monitor [/bold white on blue] [bold blue]"
    ++ env.fmtTime ts ++ "[/bold blue]"
  let mp ← create_metrics_panel m
  let sp ← create_services_panel (dictGet m "services" (.vlist []))
  let mpp ← create_mount_points_panel (dictGet m "mount_points" (.vlist []))
  let pd := dictGet m "partitions" (.vdict [])
  let p1 ← create_partition_panel (← pyGet pd "partition1" (.vdict [])) "Partition 1"
  let p2 ← create_partition_panel (← pyGet pd "partition2" (.vdict [])) "Partition 2"
  let p3 ← create_partition_panel (← pyGet pd "partition3" (.vdict [])) "Partition 3"
  let lp ← create_system_logs_panel env (dictGet m "logs" (.vlist []))
  Except.ok
    { header := header, metricsP := mp, servicesP := sp, mountsP := mpp,
      partition1 := p1, partition2 := p2, partition3 := p3, logsP := lp,
      footer := footerText }

/-! ## Driver loop (src/system_monitor.py)

The while-True body wraps one collect/render/update step in
`try ... except Exception`, with the outer `with Live` block and its
`except KeyboardInterrupt` around the loop.  An exception is embedded with
its Python classification: `Exception` subclasses are caught by the inner
handler, KeyboardInterrupt escapes the body and ends the loop from the
outer handler. -/

/-- A Python exception as the loop classifies it. -/
inductive PyError where
  | exc : String → PyError
  | keyboardInterrupt : PyError

/-- Inputs of one tick: the outcome of get_metrics and of
create_dashboard on whatever snapshot was collected. -/
structure TickEnv where
  collect : Except PyError (List (String × Value))
  render : List (String × Value) → Except PyError Frame

/-- Observable result of one executed loop body. -/
inductive TickOutcome where
  | displayed : Frame → TickOutcome
  | handled : String → TickOutcome

/-- One iteration of the while loop of main: the try block runs collect
then render then the live update; an Exception lands in the inner handler
which prints and falls through to the sleep, while a KeyboardInterrupt
escapes the body. -/
def tickBody (env : TickEnv) : Except PyError TickOutcome :=
  match env.collect with
  | .error (.exc e) => .ok (.handled ("Error updating dashboard: " ++ e))
  | .error .keyboardInterrupt => .error .keyboardInterrupt
  | .ok m =>
    match env.render m with
    | .error (.exc e) => .ok (.handled ("Error updating dashboard: " ++ e))
    | .error .keyboardInterrupt => .error .keyboardInterrupt
    | .ok fr => .ok (.displayed fr)

/-- The while loop of main driven by a finite schedule of tick inputs:
it returns the outcomes of the executed iterations and whether the loop
was still running when the schedule was exhausted (false means an
exception escaped the body and ended the loop). -/
def runLoop : List TickEnv → List TickOutcome × Bool
  | [] => ([], true)
  | env :: rest =>
    match tickBody env with
    | .ok obs =>
      let r := runLoop rest
      (obs :: r.1, r.2)
    | .error _ => ([], false)

/-! ## Shared lemmas -/

@[simp]
theorem except_bind_ok {ε α β : Type} (a : α) (f : α → Except ε β) :
    (Except.ok a >>= f : Except ε β) = f a := rfl

@[simp]
theorem except_bind_err {ε α β : Type} (e : ε) (f : α → Except ε β) :
    (Except.error e >>= f : Except ε β) = .error e := rfl

theorem roundTenths_ofInt (q : ℚ) (n : ℤ) (h : q * 10 = (n : ℚ)) :
    roundTenthsHalfEven q = n := by
  have hden : (0:ℤ) < (q.den : ℤ) := by exact_mod_cast q.den_pos
  have hdne : (q.den : ℤ) ≠ 0 := ne_of_gt hden
  have key : 10 * q.num = n * (q.den : ℤ) := by
    have hq : ((q.num : ℚ) / (q.den : ℚ)) * 10 = (n : ℚ) := by
      rw [Rat.num_div_den q]
      exact h
    have hden0 : ((q.den : ℕ) : ℚ) ≠ 0 := by
      exact_mod_cast q.den_pos.ne.symm
    field_simp at hq
    have hq2 : ((10 * q.num : ℤ) : ℚ) = ((n * (q.den : ℤ) : ℤ) : ℚ) := by
      push_cast
      linarith
    exact_mod_cast hq2
  have hf : Int.fdiv (10 * q.num) (q.den : ℤ) = n := by
    rw [key]
    exact Int.mul_fdiv_cancel n hdne
  simp only [roundTenthsHalfEven, hf, key]
  simp [hden]

theorem fmt1_ofInt (q : ℚ) (n : ℤ) (h : q * 10 = (n : ℚ)) (hn : 0 ≤ n) :
    fmt1 q = toString (n / 10) ++ "." ++ toString (n % 10) := by
  simp only [fmt1, roundTenths_ofInt q n h]
  rw [if_neg (by omega)]

theorem fmt1_zero : fmt1 0 = "0.0" := by
  rw [fmt1_ofInt 0 0 (by norm_num) le_rfl]
  rfl

/-! ## C2: status color thresholds -/

/-- C2: for every value and every threshold class among cpu, memory and
disk, get_status_color returns red exactly when the value is at or above
the critical cutoff, yellow exactly when it is at or above the warning
cutoff but below the critical one, and green exactly when it is below the
warning cutoff, with cutoffs cpu 70/90, memory 70/90, disk 80/95; a value
exactly at a cutoff lands in the higher band. -/
theorem C2_status_color_bands (v : ℚ) (c : String) (warn crit : ℚ)
    (hc : (c = "cpu" ∧ warn = 70 ∧ crit = 90) ∨
          (c = "memory" ∧ warn = 70 ∧ crit = 90) ∨
          (c = "disk" ∧ warn = 80 ∧ crit = 95)) :
    (get_status_color v c = "red" ↔ crit ≤ v) ∧
    (get_status_color v c = "yellow" ↔ warn ≤ v ∧ v < crit) ∧
    (get_status_color v c = "green" ↔ v < warn) := by
  have hwc : warn < crit ∧ thresholdsFor c = (warn, crit) := by
    rcases hc with ⟨h1, h2, h3⟩ | ⟨h1, h2, h3⟩ | ⟨h1, h2, h3⟩ <;>
      subst h1 <;> subst h2 <;> subst h3 <;>
      exact ⟨by norm_num, by rfl⟩
  obtain ⟨hlt, hth⟩ := hwc
  unfold get_status_color
  rw [hth]
  dsimp only
  by_cases h1 : crit ≤ v
  · rw [if_pos h1]
    refine ⟨⟨fun _ => h1, fun _ => rfl⟩, ⟨fun h => absurd h (by decide), ?_⟩,
      ⟨fun h => absurd h (by decide), fun h => absurd h1 (not_le.mpr (lt_trans h hlt))⟩⟩
    rintro ⟨-, hv⟩
    exact absurd h1 (not_le.mpr hv)
  · rw [if_neg h1]
    by_cases h2 : warn ≤ v
    · rw [if_pos h2]
      refine ⟨⟨fun h => absurd h (by decide), fun h => absurd h1 (by simp [h])⟩,
        ⟨fun _ => ⟨h2, not_le.mp h1⟩, fun _ => rfl⟩,
        ⟨fun h => absurd h (by decide), fun h => absurd h2 (not_le.mpr h)⟩⟩
    · rw [if_neg h2]
      refine ⟨⟨fun h => absurd h (by decide), fun h => absurd h1 (by simp [h])⟩,
        ⟨fun h => absurd h (by decide), fun h => absurd h2 (by simp [h.1])⟩,
        ⟨fun _ => not_le.mp h2, fun _ => rfl⟩⟩

/-- Witness for C2 at the cpu critical cutoff: 90 maps to the higher
band. -/
theorem C2_status_color_bands_witness : get_status_color 90 "cpu" = "red" :=
  ((C2_status_color_bands 90 "cpu" 70 90 (Or.inl ⟨rfl, rfl, rfl⟩)).1).mpr le_rfl

/-! ## C7: byte formatting -/

/-- The unit names of format_bytes in order. -/
def unitName (k : ℕ) : String :=
  if k = 0 then "B" else if k = 1 then "KB" else if k = 2 then "MB"
  else if k = 3 then "GB" else "TB"

/-- The first unit index at which the value has dropped below 1024, the
TB fallback included. -/
def unitIndex (v : ℚ) : ℕ :=
  if v < 1024 then 0 else if v < 1024 ^ 2 then 1 else if v < 1024 ^ 3 then 2
  else if v < 1024 ^ 4 then 3 else 4

/-- C7: format_bytes renders the value divided down by the first unit
among B, KB, MB, GB, TB under which it is below 1024 (TB being the
fallback), with one decimal place, and in particular maps 0, 1024, 1536
and 1024^4 to "0.0 B", "1.0 KB", "1.5 KB" and "1.0 TB". -/
theorem C7_format_bytes_units (v : ℚ) :
    format_bytes v = fmt1 (v / 1024 ^ unitIndex v) ++ " " ++ unitName (unitIndex v) ∧
    (∀ j, j < unitIndex v → 1024 ≤ v / 1024 ^ j) ∧
    (v < 1024 ^ 5 → v / 1024 ^ unitIndex v < 1024) ∧
    format_bytes 0 = "0.0 B" ∧ format_bytes 1024 = "1.0 KB" ∧
    format_bytes 1536 = "1.5 KB" ∧ format_bytes (1024 ^ 4) = "1.0 TB" := by
  have h1024 : (0 : ℚ) < 1024 := by norm_num
  have hdiv : ∀ w : ℚ, ∀ k : ℕ, w / 1024 ^ k / 1024 = w / 1024 ^ (k + 1) := by
    intro w k
    rw [div_div, pow_succ]
  have hb : format_bytes 0 = "0.0 B" := by
    have : fmt1 0 = "0.0" := fmt1_zero
    simp only [format_bytes, format_bytes_loop, if_pos (by norm_num : (0 : ℚ) < 1024), this]
    rfl
  have hkb : format_bytes 1024 = "1.0 KB" := by
    have e : fmt1 ((1024 : ℚ) / 1024) = "1.0" := by
      rw [fmt1_ofInt ((1024 : ℚ) / 1024) 10 (by norm_num) (by norm_num)]
      rfl
    simp only [format_bytes, format_bytes_loop, if_neg (by norm_num : ¬((1024 : ℚ) < 1024)),
      if_pos (by norm_num : (1024 : ℚ) / 1024 < 1024), e]
    rfl
  have hkb15 : format_bytes 1536 = "1.5 KB" := by
    have e : fmt1 ((1536 : ℚ) / 1024) = "1.5" := by
      rw [fmt1_ofInt ((1536 : ℚ) / 1024) 15 (by norm_num) (by norm_num)]
      rfl
    simp only [format_bytes, format_bytes_loop, if_neg (by norm_num : ¬((1536 : ℚ) < 1024)),
      if_pos (by norm_num : (1536 : ℚ) / 1024 < 1024), e]
    rfl
  have htb : format_bytes (1024 ^ 4) = "1.0 TB" := by
    have e : fmt1 ((1024 : ℚ) ^ 4 / 1024 / 1024 / 1024 / 1024) = "1.0" := by
      rw [fmt1_ofInt ((1024 : ℚ) ^ 4 / 1024 / 1024 / 1024 / 1024) 10 (by norm_num) (by norm_num)]
      rfl
    simp only [format_bytes, format_bytes_loop,
      if_neg (by norm_num : ¬((1024 : ℚ) ^ 4 < 1024)),
      if_neg (by norm_num : ¬((1024 : ℚ) ^ 4 / 1024 < 1024)),
      if_neg (by norm_num : ¬((1024 : ℚ) ^ 4 / 1024 / 1024 < 1024)),
      if_neg (by norm_num : ¬((1024 : ℚ) ^ 4 / 1024 / 1024 / 1024 < 1024)), e]
    rfl
  have c1 : (v / 1024 < 1024) ↔ v < 1024 ^ 2 := by
    rw [div_lt_iff₀ h1024]
    norm_num
  have c2 : (v / 1024 / 1024 < 1024) ↔ v < 1024 ^ 3 := by
    rw [show v / 1024 / 1024 = v / (1024 * 1024) by ring,
      div_lt_iff₀ (by norm_num : (0:ℚ) < 1024 * 1024)]
    norm_num
  have c3 : (v / 1024 / 1024 / 1024 < 1024) ↔ v < 1024 ^ 4 := by
    rw [show v / 1024 / 1024 / 1024 = v / (1024 * 1024 * 1024) by ring,
      div_lt_iff₀ (by norm_num : (0:ℚ) < 1024 * 1024 * 1024)]
    norm_num
  have e1 : v / 1024 = v / 1024 ^ 1 := by ring
  have e2 : v / 1024 / 1024 = v / 1024 ^ 2 := by ring
  have e3 : v / 1024 / 1024 / 1024 = v / 1024 ^ 3 := by ring
  have e4 : v / 1024 / 1024 / 1024 / 1024 = v / 1024 ^ 4 := by ring
  refine ⟨?_, ?_, ?_, hb, hkb, hkb15, htb⟩
  · unfold format_bytes unitIndex
    simp only [format_bytes_loop, c1, c2, c3]
    split_ifs with h0 h1 h2 h3
    · norm_num [unitName]
    · rw [e1]
      norm_num [unitName]
    · rw [e2]
      norm_num [unitName]
    · rw [e3]
      norm_num [unitName]
    · rw [e4]
      norm_num [unitName]
  · intro j hj
    have hle : ∀ k : ℕ, ¬ v < 1024 ^ (k + 1) → 1024 ≤ v / 1024 ^ k := by
      intro k hk
      rw [le_div_iff₀ (by positivity : (0:ℚ) < 1024 ^ k)]
      rw [not_lt] at hk
      calc 1024 * 1024 ^ k = 1024 ^ (k + 1) := by rw [pow_succ, mul_comm]
        _ ≤ v := hk
    unfold unitIndex at hj
    by_cases h0 : v < 1024
    · rw [if_pos h0] at hj; omega
    · rw [if_neg h0] at hj
      by_cases h1 : v < 1024 ^ 2
      · rw [if_pos h1] at hj
        interval_cases j
        exact hle 0 (by rw [pow_one]; exact h0)
      · rw [if_neg h1] at hj
        by_cases h2 : v < 1024 ^ 3
        · rw [if_pos h2] at hj
          interval_cases j
          · exact hle 0 (by rw [pow_one]; exact h0)
          · exact hle 1 h1
        · rw [if_neg h2] at hj
          by_cases h3 : v < 1024 ^ 4
          · rw [if_pos h3] at hj
            interval_cases j
            · exact hle 0 (by rw [pow_one]; exact h0)
            · exact hle 1 h1
            · exact hle 2 h2
          · rw [if_neg h3] at hj
            interval_cases j
            · exact hle 0 (by rw [pow_one]; exact h0)
            · exact hle 1 h1
            · exact hle 2 h2
            · exact hle 3 h3
  · intro h5
    have hlt : ∀ k : ℕ, v < 1024 ^ (k + 1) → v / 1024 ^ k < 1024 := by
      intro k hk
      rw [div_lt_iff₀ (by positivity : (0:ℚ) < 1024 ^ k)]
      calc v < 1024 ^ (k + 1) := hk
        _ = 1024 * 1024 ^ k := by rw [pow_succ, mul_comm]
    unfold unitIndex
    by_cases h0 : v < 1024
    · rw [if_pos h0]
      simpa using h0
    · rw [if_neg h0]
      by_cases h1 : v < 1024 ^ 2
      · rw [if_pos h1]; exact hlt 1 h1
      · rw [if_neg h1]
        by_cases h2 : v < 1024 ^ 3
        · rw [if_pos h2]; exact hlt 2 h2
        · rw [if_neg h2]
          by_cases h3 : v < 1024 ^ 4
          · rw [if_pos h3]; exact hlt 3 h3
          · rw [if_neg h3]; exact hlt 4 h5

/-- At 1536 bytes the selected unit is KB: helper evaluation shared with
the C7 witness. -/
theorem unitIndex_1536 : unitIndex 1536 = 1 := by
  norm_num [unitIndex]

/-- Witness for C7 at 1536 bytes: the theorem applied at a concrete
input, its inner bound discharged at j = 0. -/
theorem C7_format_bytes_units_witness :
    1024 ≤ (1536 : ℚ) / 1024 ^ (0 : ℕ) ∧ format_bytes 1536 = "1.5 KB" :=
  ⟨(C7_format_bytes_units 1536).2.1 0 (by simp [unitIndex_1536]),
   (C7_format_bytes_units 1536).2.2.2.2.2.1⟩

/-! ## C5: the mount sentinel -/

theorem alookup_some_not_nil {d : List (String × Value)} {k : String} {v : Value}
    (h : alookup d k = some v) : d.isEmpty = false := by
  cases d with
  | nil => simp [alookup] at h
  | cons hd tl => rfl

theorem get_mount_points_ne_nil (env : MountEnv) : get_mount_points env ≠ [] := by
  unfold get_mount_points
  by_cases h : (mountPointsRaw env).isEmpty
  · rw [if_pos h]
    simp
  · rw [if_neg h]
    exact fun hc => h (by rw [hc]; rfl)

/-- C5: whenever the accumulated mount list is empty, _get_mount_points
returns exactly the one "No devices found" sentinel entry with status
error, and the mount_points field of every snapshot is a non-empty
list. -/
theorem C5_mount_sentinel (env : MountEnv) :
    (mountPointsRaw env = [] → get_mount_points env = [noDevicesEntry]) ∧
    get_mount_points env ≠ [] ∧
    (∀ cenv : CollectEnv, ∀ l, alookup (get_metrics cenv) "mount_points" = some (.vlist l) →
      l ≠ []) := by
  refine ⟨?_, get_mount_points_ne_nil env, ?_⟩
  · intro h
    unfold get_mount_points
    rw [h]
    rfl
  · intro cenv l hl
    have : alookup (get_metrics cenv) "mount_points" =
        some (.vlist (get_mount_points cenv.mounts)) := rfl
    rw [this] at hl
    have hv : Value.vlist (get_mount_points cenv.mounts) = .vlist l := by
      injection hl
    have : get_mount_points cenv.mounts = l := by injection hv
    rw [← this]
    exact get_mount_points_ne_nil cenv.mounts

/-- Witness for C5: an enumeration returning no partitions yields exactly
the sentinel entry. -/
theorem C5_mount_sentinel_witness :
    get_mount_points ⟨.ok [], fun _ => .permissionError⟩ = [noDevicesEntry] :=
  (C5_mount_sentinel ⟨.ok [], fun _ => .permissionError⟩).1 rfl

/-! ## C8: the partition probes -/

/-- C8: for a vendor partition command, empty output and invalid JSON and
a non-zero exit each yield a mapping with an error key, while a valid
JSON object forwards the value of its partition1 key. -/
theorem C8_partition_probe (env : PartEnv) :
    (∀ out, env.run = .ok out → out = "" →
      get_partition_info env = .vdict [("error", .vstr "No data received")]) ∧
    (∀ out, env.run = .ok out → out ≠ "" → env.jsonLoads out = .invalid →
      get_partition_info env = .vdict [("error", .vstr "Invalid JSON data received")]) ∧
    (∀ e, env.run = .calledProcessError e →
      get_partition_info env = .vdict [("error", .vstr ("Command failed: " ++ e))]) ∧
    (∀ out d v, env.run = .ok out → out ≠ "" →
      env.jsonLoads out = .parsed (.vdict d) → alookup d "partition1" = some v →
      get_partition_info env = v) := by
  refine ⟨?_, ?_, ?_, ?_⟩
  · intro out hrun hout
    subst hout
    simp [get_partition_info, hrun]
  · intro out hrun hout hjson
    simp [get_partition_info, hrun, hout, hjson]
  · intro e hrun
    simp [get_partition_info, hrun]
  · intro out d v hrun hout hjson hkey
    simp [get_partition_info, hrun, hout, hjson, pyGet, dictGet, hkey]

/-- Witness for C8: a successful run whose JSON object carries a
partition1 key forwards exactly that value. -/
theorem C8_partition_probe_witness :
    get_partition_info
      ⟨.ok "x", fun _ => .parsed (.vdict [("partition1", .vstr "report")])⟩ =
      .vstr "report" :=
  (C8_partition_probe _).2.2.2 "x" [("partition1", .vstr "report")] (.vstr "report")
    rfl (by simp) rfl rfl

/-! ## C10: the empty partition report and its rendering -/

/-- C10: a valid JSON object without a partition1 key makes the probe
forward the empty mapping, which carries no error key; and the partition
panel renders any empty or error-keyed report as the red error panel,
with the placeholder message for the empty mapping. -/
theorem C10_empty_partition_report (env : PartEnv) :
    (∀ out d, env.run = .ok out → out ≠ "" →
      env.jsonLoads out = .parsed (.vdict d) → alookup d "partition1" = none →
      get_partition_info env = .vdict [] ∧
        hasKey ([] : List (String × Value)) "error" = false) ∧
    (∀ name, create_partition_panel (.vdict []) name =
      .ok ⟨"[bold blue]" ++ name ++ "[/bold blue]", "blue",
        .text "Failed to get partition data" "red"⟩) ∧
    (∀ name d e, alookup d "error" = some (.vstr e) →
      create_partition_panel (.vdict d) name =
        .ok ⟨"[bold blue]" ++ name ++ "[/bold blue]", "blue", .text e "red"⟩) := by
  refine ⟨?_, ?_, ?_⟩
  · intro out d hrun hout hjson hkey
    refine ⟨?_, rfl⟩
    simp [get_partition_info, hrun, hout, hjson, pyGet, dictGet, hkey]
  · intro name
    rfl
  · intro name d e hkey
    have hne : d.isEmpty = false := alookup_some_not_nil hkey
    simp [create_partition_panel, truthy, hne, pyContains, hasKey, hkey, pyGet, dictGet, pyStr]

/-- Witness for C10: a JSON object with only unrelated keys yields the
empty report, rendered as the placeholder red panel. -/
theorem C10_empty_partition_report_witness :
    get_partition_info ⟨.ok "x", fun _ => .parsed (.vdict [("other", .vnat 1)])⟩ =
      .vdict [] ∧
    create_partition_panel (.vdict []) "Partition 1" =
      .ok ⟨"[bold blue]" ++ "Partition 1" ++ "[/bold blue]", "blue",
        .text "Failed to get partition data" "red"⟩ :=
  ⟨((C10_empty_partition_report _).1 "x" [("other", .vnat 1)] rfl (by simp) rfl rfl).1,
   (C10_empty_partition_report ⟨.ok "x", fun _ => .parsed (.vdict [("other", .vnat 1)])⟩).2.1
     "Partition 1"⟩

/-! ## C6: the service filter -/

/-- C6: a parsed unit line is retained exactly when one of its
load/active/sub columns is in the fixed unhealthy set, and the retained
entry carries name, status=active, sub_status=sub, load_status=load; on
the two example lines only the second is retained with the stated fields;
a non-zero systemctl exit yields the single synthetic error entry. -/
theorem C6_service_filter :
    (∀ line name load active sub rest,
      pySplitWs line = name :: load :: active :: sub :: rest →
      ((parseServiceLine line).isSome ↔
        (load ∈ unhealthyStates ∨ active ∈ unhealthyStates ∨ sub ∈ unhealthyStates)) ∧
      ((load ∈ unhealthyStates ∨ active ∈ unhealthyStates ∨ sub ∈ unhealthyStates) →
        parseServiceLine line = some (.vdict [("name", .vstr name),
          ("status", .vstr active), ("sub_status", .vstr sub),
          ("load_status", .vstr load), ("response_time", .vnat 0)]))) ∧
    get_system_services
        (.ok "a.service loaded active running\nb.service not-found failed dead") =
      [.vdict [("name", .vstr "b.service"), ("status", .vstr "failed"),
        ("sub_status", .vstr "dead"), ("load_status", .vstr "not-found"),
        ("response_time", .vnat 0)]] ∧
    (∀ e, get_system_services (.calledProcessError e) =
      [.vdict [("name", .vstr "systemctl"), ("status", .vstr "error"),
        ("error", .vstr ("Failed to get services: " ++ e)),
        ("response_time", .vnat 0)]]) := by
  refine ⟨?_, by rfl, fun e => rfl⟩
  intro line name load active sub rest h
  unfold parseServiceLine
  rw [h]
  dsimp only
  by_cases hcond : load ∈ unhealthyStates ∨ active ∈ unhealthyStates ∨ sub ∈ unhealthyStates
  · rw [if_pos hcond]
    exact ⟨by simp [hcond], fun _ => rfl⟩
  · rw [if_neg hcond]
    exact ⟨by simp [hcond], fun hc => absurd hc hcond⟩

/-- Witness for C6: the example line with failed/dead states is retained
with the stated fields. -/
theorem C6_service_filter_witness :
    parseServiceLine "b.service not-found failed dead" =
      some (.vdict [("name", .vstr "b.service"), ("status", .vstr "failed"),
        ("sub_status", .vstr "dead"), ("load_status", .vstr "not-found"),
        ("response_time", .vnat 0)]) :=
  (C6_service_filter.1 "b.service not-found failed dead"
    "b.service" "not-found" "failed" "dead" [] rfl).2 (by simp [unhealthyStates])

/-! ## C9: one bad tick never stops the loop -/

/-- A tick whose failures are Exception subclasses (the only failures
collect and render can raise short of an interrupt). -/
def ExcOnly (env : TickEnv) : Prop :=
  env.collect ≠ .error .keyboardInterrupt ∧
  ∀ m, env.render m ≠ .error .keyboardInterrupt

theorem tickBody_ok_of_excOnly (env : TickEnv) (h : ExcOnly env) :
    ∃ obs, tickBody env = .ok obs := by
  obtain ⟨hc, hr⟩ := h
  cases henv : env.collect with
  | error pe =>
    cases pe with
    | exc e =>
      refine ⟨.handled ("Error updating dashboard: " ++ e), ?_⟩
      unfold tickBody
      rw [henv]
    | keyboardInterrupt => exact absurd henv hc
  | ok m =>
    cases hren : env.render m with
    | error pe =>
      cases pe with
      | exc e =>
        refine ⟨.handled ("Error updating dashboard: " ++ e), ?_⟩
        unfold tickBody
        rw [henv]
        dsimp only
        rw [hren]
      | keyboardInterrupt => exact absurd hren (hr m)
    | ok fr =>
      refine ⟨.displayed fr, ?_⟩
      unfold tickBody
      rw [henv]
      dsimp only
      rw [hren]

/-- C9: over any schedule of ticks whose collect/render failures are
ordinary exceptions, every scheduled tick executes (the inner handler
catches the failure and the loop continues, so the tick after a failing
one still runs its collect and render) and the loop is still running at
the end; a failing collect produces exactly the handled outcome of the
inner except branch. -/
theorem C9_loop_survives_bad_tick (envs : List TickEnv)
    (h : ∀ env ∈ envs, ExcOnly env) :
    (runLoop envs).1.length = envs.length ∧ (runLoop envs).2 = true ∧
    (∀ env e, env ∈ envs → env.collect = .error (.exc e) →
      tickBody env = .ok (.handled ("Error updating dashboard: " ++ e))) := by
  refine ⟨?_, ?_, ?_⟩
  · induction envs with
    | nil => rfl
    | cons env rest ih =>
      obtain ⟨obs, hobs⟩ := tickBody_ok_of_excOnly env (h env (by simp))
      simp only [runLoop, hobs, List.length_cons]
      rw [ih (fun e he => h e (by simp [he]))]
  · induction envs with
    | nil => rfl
    | cons env rest ih =>
      obtain ⟨obs, hobs⟩ := tickBody_ok_of_excOnly env (h env (by simp))
      simp only [runLoop, hobs]
      exact ih (fun e he => h e (by simp [he]))
  · intro env e _ hc
    unfold tickBody
    rw [hc]

/-- Witness for C9: a two-tick schedule whose first tick raises in
collect and whose second raises in render still executes both ticks and
leaves the loop running. -/
theorem C9_loop_survives_bad_tick_witness :
    (runLoop [⟨.error (.exc "boom"), fun _ => .error (.exc "later")⟩,
      ⟨.ok [], fun _ => .error (.exc "bad render")⟩]).1.length = 2 ∧
    (runLoop [⟨.error (.exc "boom"), fun _ => .error (.exc "later")⟩,
      ⟨.ok [], fun _ => .error (.exc "bad render")⟩]).2 = true := by
  have h := C9_loop_survives_bad_tick
    [⟨.error (.exc "boom"), fun _ => .error (.exc "later")⟩,
     ⟨.ok [], fun _ => .error (.exc "bad render")⟩]
    (by
      intro env henv
      simp only [List.mem_cons, List.not_mem_nil, or_false] at henv
      rcases henv with h1 | h2
      · subst h1
        exact ⟨by simp, fun m => by simp⟩
      · subst h2
        exact ⟨by simp, fun m => by simp⟩)
  exact ⟨h.1, h.2.1⟩

/-! ## C1: the collector never raises -/

/-- The eight snapshot field names in source order. -/
def snapshotKeys : List String :=
  ["timestamp", "cpu", "memory", "disk", "mount_points", "services", "logs", "partitions"]

/-- C1: get_metrics always returns the mapping with all eight snapshot
fields, and a probe whose underlying call raises contributes a value with
an explicit error key, or a single-element placeholder list for the
list-valued probes, instead of aborting the collection. -/
theorem C1_collector_never_raises (env : CollectEnv) :
    ((get_metrics env).map Prod.fst = snapshotKeys) ∧
    (∀ e, env.cpu.cpu_percent = .error e →
      hasKey (get_cpu_metrics env.cpu) "error" = true) ∧
    (∀ e, env.memory.virtual_memory = .error e →
      hasKey (get_memory_metrics env.memory) "error" = true) ∧
    (∀ e, env.disk.disk_usage_root = .error e →
      hasKey (get_disk_metrics env.disk) "error" = true) ∧
    (∀ e, env.mounts.disk_partitions = .error e →
      ∃ d, get_mount_points env.mounts = [.vdict d] ∧ hasKey d "error" = true) ∧
    (∀ e, env.services = .calledProcessError e →
      ∃ d, get_system_services env.services = [.vdict d] ∧ hasKey d "error" = true) ∧
    (∀ e, env.logs.journalctl = .calledProcessError e →
      (get_system_logs env.logs).length = 1) ∧
    (∀ e, env.partitions.p1.run = .calledProcessError e →
      ∃ d, get_partition_info env.partitions.p1 = .vdict d ∧ hasKey d "error" = true) ∧
    alookup (get_metrics env) "cpu" = some (.vdict (get_cpu_metrics env.cpu)) ∧
    alookup (get_metrics env) "mount_points" =
      some (.vlist (get_mount_points env.mounts)) := by
  refine ⟨rfl, ?_, ?_, ?_, ?_, ?_, ?_, ?_, rfl, rfl⟩
  · intro e h
    simp [get_cpu_metrics, h, hasKey, alookup]
  · intro e h
    simp [get_memory_metrics, h, hasKey, alookup]
  · intro e h
    simp [get_disk_metrics, h, hasKey, alookup]
  · intro e h
    refine ⟨[("device", .vstr "Unknown"), ("mountpoint", .vstr "Unknown"),
      ("fstype", .vstr "Unknown"), ("status", .vstr "error"),
      ("error", .vstr ("Failed to get mount points: " ++ e))], ?_, rfl⟩
    simp [get_mount_points, mountPointsRaw, h, unknownMountEntry]
  · intro e h
    refine ⟨[("name", .vstr "systemctl"), ("status", .vstr "error"),
      ("error", .vstr ("Failed to get services: " ++ e)),
      ("response_time", .vnat 0)], ?_, rfl⟩
    rw [h]
    rfl
  · intro e h
    simp [get_system_logs, h]
  · intro e h
    refine ⟨[("error", .vstr ("Command failed: " ++ e))], ?_, rfl⟩
    simp [get_partition_info, h]

/-- A collection environment in which every external call raises. -/
def failEnv : CollectEnv where
  timeNow := 0
  cpu := ⟨.error "c", .error "c", .error "c"⟩
  memory := ⟨.error "m", .error "m"⟩
  disk := ⟨.error "d", .error "d"⟩
  mounts := ⟨.error "p", fun _ => .permissionError⟩
  services := .calledProcessError "s"
  logs := ⟨.calledProcessError "j", fun _ => none, 0⟩
  partitions := ⟨⟨.calledProcessError "v", fun _ => .invalid⟩,
    ⟨.calledProcessError "v", fun _ => .invalid⟩,
    ⟨.calledProcessError "v", fun _ => .invalid⟩⟩

/-- Witness for C1: with every probe failing, the snapshot still has all
eight fields and every sub-field carries its error marker. -/
theorem C1_collector_never_raises_witness :
    (get_metrics failEnv).map Prod.fst = snapshotKeys ∧
    hasKey (get_cpu_metrics failEnv.cpu) "error" = true ∧
    hasKey (get_memory_metrics failEnv.memory) "error" = true ∧
    hasKey (get_disk_metrics failEnv.disk) "error" = true ∧
    (∃ d, get_mount_points failEnv.mounts = [.vdict d] ∧ hasKey d "error" = true) ∧
    (∃ d, get_system_services failEnv.services = [.vdict d] ∧ hasKey d "error" = true) ∧
    (get_system_logs failEnv.logs).length = 1 ∧
    (∃ d, get_partition_info failEnv.partitions.p1 = .vdict d ∧
      hasKey d "error" = true) := by
  have h := C1_collector_never_raises failEnv
  exact ⟨h.1, h.2.1 "c" rfl, h.2.2.1 "m" rfl, h.2.2.2.1 "d" rfl,
    h.2.2.2.2.1 "p" rfl, h.2.2.2.2.2.1 "s" rfl, h.2.2.2.2.2.2.1 "j" rfl,
    h.2.2.2.2.2.2.2.1 "v" rfl⟩

/-! ## C4: mount filtering -/

theorem processMounts_skips_virtual (usage : String → UsageResult)
    (ps : List PartitionEntry) :
    processMounts usage ps =
      processMounts usage (ps.filter (fun p => decide (p.fstype ∉ virtualFstypes))) := by
  induction ps with
  | nil => rfl
  | cons p rest ih =>
    by_cases hp : p.fstype ∈ virtualFstypes
    · have hf : decide (p.fstype ∉ virtualFstypes) = false := by simp [hp]
      rw [List.filter_cons]
      simp only [hf, Bool.false_eq_true, if_false]
      rw [processMounts, if_pos hp, ih]
    · have hf : decide (p.fstype ∉ virtualFstypes) = true := by simp [hp]
      rw [List.filter_cons]
      simp only [hf, if_true]
      rw [processMounts, processMounts, if_neg hp, if_neg hp, ih]

theorem processMounts_cons_step (usage : String → UsageResult) (q : PartitionEntry)
    (rest : List PartitionEntry) (x : Value) (hx : x ∈ processMounts usage rest) :
    x ∈ processMounts usage (q :: rest) := by
  by_cases hqv : q.fstype ∈ virtualFstypes
  · rw [processMounts, if_pos hqv]
    exact hx
  · rw [processMounts, if_neg hqv]
    cases usage q.mountpoint with
    | ok u2 =>
      by_cases hqd : pyStartsWith q.device "/dev/" = true
      · simp only [hqd, if_true]
        exact List.mem_cons_of_mem _ hx
      · simp only [hqd, Bool.false_eq_true, if_false]
        exact hx
    | permissionError => exact List.mem_cons_of_mem _ hx
    | failure e =>
      by_cases hqd : pyStartsWith q.device "/dev/" = true
      · simp only [hqd, if_true]
        exact List.mem_cons_of_mem _ hx
      · simp only [hqd, Bool.false_eq_true, if_false]
        exact hx

theorem processMounts_mem_ok (usage : String → UsageResult) (ps : List PartitionEntry)
    (p : PartitionEntry) (hp : p ∈ ps) (hv : p.fstype ∉ virtualFstypes)
    (u : DiskUsage) (hu : usage p.mountpoint = .ok u)
    (hd : pyStartsWith p.device "/dev/" = true) :
    mountEntryOk p u ∈ processMounts usage ps := by
  induction ps with
  | nil => simp at hp
  | cons q rest ih =>
    rcases List.mem_cons.mp hp with hq | hq
    · subst hq
      rw [processMounts, if_neg hv]
      simp only [hu, hd, if_true]
      exact List.mem_cons_self _ _
    · exact processMounts_cons_step usage q rest _ (ih hq)

theorem processMounts_mem_perm (usage : String → UsageResult) (ps : List PartitionEntry)
    (p : PartitionEntry) (hp : p ∈ ps) (hv : p.fstype ∉ virtualFstypes)
    (hu : usage p.mountpoint = .permissionError) :
    mountEntryErr p "Permission denied" ∈ processMounts usage ps := by
  induction ps with
  | nil => simp at hp
  | cons q rest ih =>
    rcases List.mem_cons.mp hp with hq | hq
    · subst hq
      rw [processMounts, if_neg hv]
      simp only [hu]
      exact List.mem_cons_self _ _
    · exact processMounts_cons_step usage q rest _ (ih hq)

theorem processMounts_shape (usage : String → UsageResult) (ps : List PartitionEntry) :
    ∀ v ∈ processMounts usage ps, ∃ d, v = .vdict d ∧
      ((alookup d "status" = some (.vstr "mounted") ∧
        ∃ dev, alookup d "device" = some (.vstr dev) ∧ pyStartsWith dev "/dev/" = true) ∨
       alookup d "status" = some (.vstr "error")) := by
  induction ps with
  | nil => intro v hv; simp [processMounts] at hv
  | cons q rest ih =>
    intro v hv
    by_cases hqv : q.fstype ∈ virtualFstypes
    · rw [processMounts, if_pos hqv] at hv
      exact ih v hv
    · rw [processMounts, if_neg hqv] at hv
      revert hv
      cases hqu : usage q.mountpoint with
      | ok u2 =>
        by_cases hqd : pyStartsWith q.device "/dev/" = true
        · simp only [hqd, if_true]
          intro hv
          rcases List.mem_cons.mp hv with hq | hq
          · subst hq
            refine ⟨_, rfl, Or.inl ⟨by simp [mountEntryOk, alookup], q.device,
              by simp [mountEntryOk, alookup], hqd⟩⟩
          · exact ih v hq
        · simp only [hqd, Bool.false_eq_true, if_false]
          exact ih v
      | permissionError =>
        intro hv
        rcases List.mem_cons.mp hv with hq | hq
        · subst hq
          exact ⟨_, rfl, Or.inr (by simp [mountEntryErr, alookup])⟩
        · exact ih v hq
      | failure e =>
        by_cases hqd : pyStartsWith q.device "/dev/" = true
        · simp only [hqd, if_true]
          intro hv
          rcases List.mem_cons.mp hv with hq | hq
          · subst hq
            exact ⟨_, rfl, Or.inr (by simp [mountEntryErr, alookup])⟩
          · exact ih v hq
        · simp only [hqd, Bool.false_eq_true, if_false]
          exact ih v

/-- C4: with a successful enumeration, the accumulated mount list ignores
every partition whose fstype is in the fixed virtual set (filtering them
out first changes nothing); a non-excluded partition statted successfully
is reported exactly when its device starts with /dev/; a permission-denied
partition is reported with status error even when its device lacks the
/dev/ prefix; and every reported entry is either a mounted entry with a
/dev/ device or an error entry. -/
theorem C4_mount_filtering (env : MountEnv) (ps : List PartitionEntry)
    (hps : env.disk_partitions = .ok ps) :
    (mountPointsRaw env =
      processMounts env.disk_usage (ps.filter (fun p => decide (p.fstype ∉ virtualFstypes)))) ∧
    (∀ p ∈ ps, p.fstype ∉ virtualFstypes → ∀ u, env.disk_usage p.mountpoint = .ok u →
      pyStartsWith p.device "/dev/" = true → mountEntryOk p u ∈ mountPointsRaw env) ∧
    (∀ p ∈ ps, p.fstype ∉ virtualFstypes → env.disk_usage p.mountpoint = .permissionError →
      mountEntryErr p "Permission denied" ∈ mountPointsRaw env) ∧
    (∀ v ∈ mountPointsRaw env, ∃ d, v = .vdict d ∧
      ((alookup d "status" = some (.vstr "mounted") ∧
        ∃ dev, alookup d "device" = some (.vstr dev) ∧ pyStartsWith dev "/dev/" = true) ∨
       alookup d "status" = some (.vstr "error"))) := by
  have hraw : mountPointsRaw env = processMounts env.disk_usage ps := by
    unfold mountPointsRaw
    rw [hps]
  refine ⟨?_, ?_, ?_, ?_⟩
  · rw [hraw]
    exact processMounts_skips_virtual env.disk_usage ps
  · intro p hp hv u hu hd
    rw [hraw]
    exact processMounts_mem_ok env.disk_usage ps p hp hv u hu hd
  · intro p hp hv hu
    rw [hraw]
    exact processMounts_mem_perm env.disk_usage ps p hp hv hu
  · rw [hraw]
    exact processMounts_shape env.disk_usage ps

/-- A three-partition enumeration exercising the C4 cases: a virtual
tmpfs mount, a real /dev/ mount, and a permission-denied non-device
mount. -/
def mountDemoParts : List PartitionEntry :=
  [⟨"tmpfs", "/run", "tmpfs", "rw"⟩,
   ⟨"/dev/sda1", "/", "ext4", "rw"⟩,
   ⟨"secfs", "/secret", "secfs2", "ro"⟩]

/-- Stat outcomes for the demo enumeration. -/
def mountDemoUsage : String → UsageResult :=
  fun mp => if mp = "/" then .ok ⟨100, 50, 50, 50⟩
    else if mp = "/secret" then .permissionError
    else .ok ⟨1, 1, 0, 100⟩

/-- The demo mount environment. -/
def mountDemoEnv : MountEnv := ⟨.ok mountDemoParts, mountDemoUsage⟩

/-- Witness for C4: on the demo enumeration the real-device mount is
reported mounted and the permission-denied mount without the device path is reported
as an error entry. -/
theorem C4_mount_filtering_witness :
    mountEntryOk ⟨"/dev/sda1", "/", "ext4", "rw"⟩ ⟨100, 50, 50, 50⟩ ∈
      mountPointsRaw mountDemoEnv ∧
    mountEntryErr ⟨"secfs", "/secret", "secfs2", "ro"⟩ "Permission denied" ∈
      mountPointsRaw mountDemoEnv := by
  have h := C4_mount_filtering mountDemoEnv mountDemoParts rfl
  exact ⟨h.2.1 ⟨"/dev/sda1", "/", "ext4", "rw"⟩ (by simp [mountDemoParts])
      (by decide) ⟨100, 50, 50, 50⟩ rfl rfl,
    h.2.2.1 ⟨"secfs", "/secret", "secfs2", "ro"⟩ (by simp [mountDemoParts])
      (by decide) rfl⟩

/-! ## C3: the renderer is total on degraded snapshots

The degraded family is the snapshots whose nested fields are missing or
carry exactly the error shapes the collector produces on probe failure:
an error-keyed cpu/memory/disk dict, the single-element mount and service
and log placeholder lists, and partition reports that are empty or
error-keyed. -/

/-- The cpu value produced by a failing cpu probe. -/
def cpuFailValue (e : String) : Value :=
  .vdict [("usage", .vnum 0), ("frequency", .vnum 0), ("cores", .vnat 0),
    ("error", .vstr e)]

/-- The bare error dict produced by failing memory/disk/partition
probes. -/
def errValue (e : String) : Value := .vdict [("error", .vstr e)]

/-- The single-element service list produced by a failing service
probe. -/
def servicesFailValue (e : String) : Value :=
  .vlist [.vdict [("name", .vstr "systemctl"), ("status", .vstr "error"),
    ("error", .vstr e), ("response_time", .vnat 0)]]

/-- The single-element log list produced by a failing log probe. -/
def logsFailValue (t : ℚ) (msg : String) : Value :=
  .vlist [.vdict [("timestamp", .vtime t), ("level", .vstr "ERROR"),
    ("message", .vstr msg)]]

/-- The partitions mapping with per-partition degraded reports. -/
def partsFailValue (v1 v2 v3 : Value) : Value :=
  .vdict [("partition1", v1), ("partition2", v2), ("partition3", v3)]

/-- A degraded single-partition report: empty or error-keyed. -/
def DegradedPartField (v : Value) : Prop :=
  v = .vdict [] ∨ ∃ e, v = errValue e

/-- The degraded snapshot family of the claim: every nested field missing
or error-shaped as the collector produces it; the empty snapshot is the
all-missing member. -/
def Degraded (m : List (String × Value)) : Prop :=
  alookup m "timestamp" = none ∧
  (alookup m "cpu" = none ∨ ∃ e, alookup m "cpu" = some (cpuFailValue e)) ∧
  (alookup m "memory" = none ∨ ∃ e, alookup m "memory" = some (errValue e)) ∧
  (alookup m "disk" = none ∨ ∃ e, alookup m "disk" = some (errValue e)) ∧
  (alookup m "mount_points" = none ∨
    (∃ e, alookup m "mount_points" = some (.vlist [unknownMountEntry e])) ∨
    alookup m "mount_points" = some (.vlist [noDevicesEntry])) ∧
  (alookup m "services" = none ∨ ∃ e, alookup m "services" = some (servicesFailValue e)) ∧
  (alookup m "logs" = none ∨ ∃ t msg, alookup m "logs" = some (logsFailValue t msg)) ∧
  (alookup m "partitions" = none ∨ ∃ v1 v2 v3, DegradedPartField v1 ∧
    DegradedPartField v2 ∧ DegradedPartField v3 ∧
    alookup m "partitions" = some (partsFailValue v1 v2 v3))

/-- The metrics panel rendered from missing or error-shaped cpu, memory
and disk fields: every figure falls back to zero. -/
def placeholderMetricsPanel : Panel :=
  ⟨"[bold blue]System Metrics[/bold blue]", "blue",
   .table [["CPU Usage:", "[green]0.0%[/green]"],
     ["CPU Frequency:", "0.0 MHz"],
     ["Memory Usage:", "[green]0.0%[/green]"],
     ["Memory Total:", "0.0 B"],
     ["Disk Usage:", "[green]0.0%[/green]"],
     ["Disk I/O:", "↑0.0 B ↓0.0 B"]]⟩

theorem metrics_panel_degraded (m : List (String × Value))
    (hcpu : alookup m "cpu" = none ∨ ∃ e, alookup m "cpu" = some (cpuFailValue e))
    (hmem : alookup m "memory" = none ∨ ∃ e, alookup m "memory" = some (errValue e))
    (hdisk : alookup m "disk" = none ∨ ∃ e, alookup m "disk" = some (errValue e)) :
    create_metrics_panel m = .ok placeholderMetricsPanel := by
  have h1 : dictGet m "cpu" (.vdict []) = .vdict [] ∨
      ∃ e, dictGet m "cpu" (.vdict []) = cpuFailValue e := by
    rcases hcpu with h | ⟨e, h⟩
    · exact Or.inl (by rw [dictGet, h]; rfl)
    · exact Or.inr ⟨e, by rw [dictGet, h]; rfl⟩
  have h2 : dictGet m "memory" (.vdict []) = .vdict [] ∨
      ∃ e, dictGet m "memory" (.vdict []) = errValue e := by
    rcases hmem with h | ⟨e, h⟩
    · exact Or.inl (by rw [dictGet, h]; rfl)
    · exact Or.inr ⟨e, by rw [dictGet, h]; rfl⟩
  have h3 : dictGet m "disk" (.vdict []) = .vdict [] ∨
      ∃ e, dictGet m "disk" (.vdict []) = errValue e := by
    rcases hdisk with h | ⟨e, h⟩
    · exact Or.inl (by rw [dictGet, h]; rfl)
    · exact Or.inr ⟨e, by rw [dictGet, h]; rfl⟩
  unfold create_metrics_panel
  rcases h1 with h1 | ⟨e1, h1⟩ <;> rcases h2 with h2 | ⟨e2, h2⟩ <;>
    rcases h3 with h3 | ⟨e3, h3⟩ <;> rw [h1, h2, h3] <;> rfl

theorem services_panel_degraded (v : Value)
    (h : v = .vlist [] ∨ ∃ e, v = servicesFailValue e) :
    ∃ p, create_services_panel v = .ok p ∧
      p.title = "[bold blue]Problem Services[/bold blue]" ∧ p.border_style = "blue" := by
  rcases h with h | ⟨e, h⟩ <;> subst h
  · exact ⟨_, rfl, rfl, rfl⟩
  · exact ⟨_, rfl, rfl, rfl⟩

theorem mounts_panel_degraded (v : Value)
    (h : v = .vlist [] ∨ (∃ e, v = .vlist [unknownMountEntry e]) ∨
      v = .vlist [noDevicesEntry]) :
    ∃ p, create_mount_points_panel v = .ok p ∧
      p.title = "[bold blue]Mount Points Status[/bold blue]" ∧ p.border_style = "blue" := by
  rcases h with h | ⟨e, h⟩ | h <;> subst h
  · exact ⟨_, rfl, rfl, rfl⟩
  · exact ⟨_, rfl, rfl, rfl⟩
  · exact ⟨_, rfl, rfl, rfl⟩

theorem logs_panel_degraded (env : RenderEnv) (v : Value)
    (h : v = .vlist [] ∨ ∃ t msg, v = logsFailValue t msg) :
    ∃ p, create_system_logs_panel env v = .ok p ∧
      p.title = "[bold blue]System Logs (Errors & Failures)[/bold blue]" ∧
      p.border_style = "blue" := by
  rcases h with h | ⟨t, msg, h⟩ <;> subst h
  · exact ⟨_, rfl, rfl, rfl⟩
  · exact ⟨_, rfl, rfl, rfl⟩

theorem partition_panel_degraded (v : Value) (name : String)
    (h : DegradedPartField v) :
    ∃ p, create_partition_panel v name = .ok p ∧
      p.title = "[bold blue]" ++ name ++ "[/bold blue]" ∧ p.border_style = "blue" := by
  rcases h with h | ⟨e, h⟩ <;> subst h
  · exact ⟨_, rfl, rfl, rfl⟩
  · exact ⟨_, rfl, rfl, rfl⟩

/-- C3: create_dashboard is total over degraded snapshots: for any
snapshot whose nested fields are missing or error-shaped (the empty
snapshot in particular), it returns a complete frame - header with the
fallback clock, metrics/services/mount-points row, three partition
panels, log table and footer - with placeholder content, instead of
raising. -/
theorem C3_render_total (env : RenderEnv) (m : List (String × Value))
    (hm : Degraded m) :
    ∃ fr : Frame, create_dashboard env (.vdict m) = .ok fr ∧
      fr.header = "[bold white on blue] System Monitor [/bold white on blue] [bold blue]"
        ++ env.fmtTime env.now ++ "[/bold blue]" ∧
      fr.footer = footerText ∧
      fr.metricsP = placeholderMetricsPanel ∧
      fr.servicesP.title = "[bold blue]Problem Services[/bold blue]" ∧
      fr.mountsP.title = "[bold blue]Mount Points Status[/bold blue]" ∧
      fr.partition1.title = "[bold blue]" ++ "Partition 1" ++ "[/bold blue]" ∧
      fr.partition2.title = "[bold blue]" ++ "Partition 2" ++ "[/bold blue]" ∧
      fr.partition3.title = "[bold blue]" ++ "Partition 3" ++ "[/bold blue]" ∧
      fr.logsP.title = "[bold blue]System Logs (Errors & Failures)[/bold blue]" := by
  obtain ⟨ht, hcpu, hmem, hdisk, hmp, hsv, hlg, hpt⟩ := hm
  have htsEq : pyFromtimestamp (dictGet m "timestamp" (.vnum env.now)) = .ok env.now := by
    rw [dictGet, ht]
    rfl
  have hmetEq := metrics_panel_degraded m hcpu hmem hdisk
  have hsvv : dictGet m "services" (.vlist []) = .vlist [] ∨
      ∃ e, dictGet m "services" (.vlist []) = servicesFailValue e := by
    rcases hsv with h | ⟨e, h⟩
    · exact Or.inl (by rw [dictGet, h]; rfl)
    · exact Or.inr ⟨e, by rw [dictGet, h]; rfl⟩
  obtain ⟨sp, hservEq, hservT, -⟩ := services_panel_degraded _ hsvv
  have hmpv : dictGet m "mount_points" (.vlist []) = .vlist [] ∨
      (∃ e, dictGet m "mount_points" (.vlist []) = .vlist [unknownMountEntry e]) ∨
      dictGet m "mount_points" (.vlist []) = .vlist [noDevicesEntry] := by
    rcases hmp with h | ⟨e, h⟩ | h
    · exact Or.inl (by rw [dictGet, h]; rfl)
    · exact Or.inr (Or.inl ⟨e, by rw [dictGet, h]; rfl⟩)
    · exact Or.inr (Or.inr (by rw [dictGet, h]; rfl))
  obtain ⟨mp, hmountEq, hmountT, -⟩ := mounts_panel_degraded _ hmpv
  have hlgv : dictGet m "logs" (.vlist []) = .vlist [] ∨
      ∃ t msg, dictGet m "logs" (.vlist []) = logsFailValue t msg := by
    rcases hlg with h | ⟨t, msg, h⟩
    · exact Or.inl (by rw [dictGet, h]; rfl)
    · exact Or.inr ⟨t, msg, by rw [dictGet, h]; rfl⟩
  obtain ⟨lp, hlogsEq, hlogsT, -⟩ := logs_panel_degraded env _ hlgv
  have hpart : ∃ v1 v2 v3, DegradedPartField v1 ∧ DegradedPartField v2 ∧
      DegradedPartField v3 ∧
      pyGet (dictGet m "partitions" (.vdict [])) "partition1" (.vdict []) = .ok v1 ∧
      pyGet (dictGet m "partitions" (.vdict [])) "partition2" (.vdict []) = .ok v2 ∧
      pyGet (dictGet m "partitions" (.vdict [])) "partition3" (.vdict []) = .ok v3 := by
    rcases hpt with h | ⟨v1, v2, v3, hd1, hd2, hd3, h⟩
    · refine ⟨.vdict [], .vdict [], .vdict [], Or.inl rfl, Or.inl rfl, Or.inl rfl, ?_, ?_, ?_⟩
        <;> rw [dictGet, h] <;> rfl
    · refine ⟨v1, v2, v3, hd1, hd2, hd3, ?_, ?_, ?_⟩ <;> rw [dictGet, h] <;> rfl
  obtain ⟨v1, v2, v3, hd1, hd2, hd3, hpg1, hpg2, hpg3⟩ := hpart
  obtain ⟨p1, hpp1, hpp1T, -⟩ := partition_panel_degraded v1 "Partition 1" hd1
  obtain ⟨p2, hpp2, hpp2T, -⟩ := partition_panel_degraded v2 "Partition 2" hd2
  obtain ⟨p3, hpp3, hpp3T, -⟩ := partition_panel_degraded v3 "Partition 3" hd3
  unfold create_dashboard
  dsimp only
  rw [htsEq, hmetEq, hservEq, hmountEq, hpg1, hpg2, hpg3, hlogsEq]
  simp only [except_bind_ok]
  rw [hpp1, hpp2, hpp3]
  simp only [except_bind_ok]
  exact ⟨_, rfl, rfl, rfl, rfl, hservT, hmountT, hpp1T, hpp2T, hpp3T, hlogsT⟩

/-- A concrete rendering environment for the C3 witness. -/
def demoRenderEnv : RenderEnv := ⟨0, fun _ => "00:00:00", fun s => s⟩

/-- Witness for C3: the empty snapshot renders to a complete frame. -/
theorem C3_render_total_witness :
    ∃ fr : Frame, create_dashboard demoRenderEnv (.vdict []) = .ok fr ∧
      fr.footer = footerText ∧ fr.metricsP = placeholderMetricsPanel :=
  have h := C3_render_total demoRenderEnv []
    ⟨rfl, Or.inl rfl, Or.inl rfl, Or.inl rfl, Or.inl rfl, Or.inl rfl,
      Or.inl rfl, Or.inl rfl⟩
  ⟨h.choose, h.choose_spec.1, h.choose_spec.2.2.1, h.choose_spec.2.2.2.1⟩

end SuperMonitor
